import Mathlib

/-!
Shallow embedding of the Domicare frontend authentication client
(`src/DOMICARE_FRONTEND/src/core/services/auth.service.ts`) together with the
response DTO interfaces
(`src/DOMICARE_FRONTEND/src/models/interface/response.interface.ts` and
`src/DOMICARE_FRONTEND/src/models/interface/auth.interface.ts`).

The client is a record of six operations, each a one-line pass-through to an
HTTP transport (`axiosClient`).  The transport itself is external to the
fragment, so it is embedded abstractly as a function from a request
description to an `Except` result: `Except.error` is a rejected promise and
`Except.ok` a fulfilled one.

The payload types `LoginType` (from `models/types/login.type`) and
`RegisterType` (from `models/types/register.type`) and the `User` record
(from `models/interface/user.interface`) are imported by the source but are
not part of the fragment.  The client forwards those values without ever
inspecting them, so they are kept as type parameters `L`, `R` and `U` of the
embedding.
-/

/-- HTTP method of a request issued by the client (only GET and POST occur). -/
inductive HttpMethod where
  | GET
  | POST

/-- A request body forwarded to the transport: either the login credentials
or the registration record, exactly as the caller supplied them. -/
inductive ReqBody (L R : Type) where
  | loginBody (p : L)
  | registerBody (p : R)

/-- The request an operation hands to the transport: method, url path, the
serialized query string (as key/value pairs) and an optional body. -/
structure HttpRequest (L R : Type) where
  method : HttpMethod
  url : String
  query : List (String × String)
  body : Option (ReqBody L R)

/-- Axios serializes the `params` object of a GET config into the query
string, dropping every key whose value is `undefined`.  A JS params object is
embedded as a list of keys paired with possibly-undefined string values. -/
def serializeQuery (params : List (String × Option String)) :
    List (String × String) :=
  params.filterMap (fun p => p.2.map (fun v => (p.1, v)))

/-- The `{ params }` config object the source passes to `axiosClient.get`. -/
structure AxiosRequestConfig where
  params : List (String × Option String)

/-- The external HTTP transport (`axiosClient`): a single dispatch taking the
request description to a promise that is either rejected with an error `ε` or
fulfilled with a response `ρ`.  In the source the response type is the phantom
generic of `get<T>`/`post<T>`; here it is the instantiation of `ρ` demanded by
each operation. -/
structure AxiosClient (L R ε ρ : Type) where
  send : HttpRequest L R → Except ε ρ

/-- `axiosClient.get(url, config)`: a GET request with the config's params
serialized into the query string and no body. -/
def AxiosClient.get {L R ε ρ : Type} (c : AxiosClient L R ε ρ) (url : String)
    (config : AxiosRequestConfig) : Except ε ρ :=
  c.send ⟨HttpMethod.GET, url, serializeQuery config.params, none⟩

/-- `axiosClient.post(url, body?)`: a POST request with no query string and
the given optional body. -/
def AxiosClient.post {L R ε ρ : Type} (c : AxiosClient L R ε ρ) (url : String)
    (body : Option (ReqBody L R)) : Except ε ρ :=
  c.send ⟨HttpMethod.POST, url, [], body⟩

def API_LOGIN_URL : String := "/auth/login"

def API_LOGOUT_URL : String := "/auth/logout"

def API_REGISTER_URL : String := "/auth/register"

def API_SENT_EMAIL_URL : String := "/auth/email/verify"

def API_RESET_PASS_URL : String := "/auth/email/reset-password"

def API_LOGIN_GOOGLE : String := "/auth/google/callback"

/-- The TS `null` type: a single value. -/
inductive NullData where
  | null

/-- `SuccessResponse<dataType>` from `response.interface.ts`: required `data`,
optional `message` and `status`. -/
structure SuccessResponse (dataType : Type) where
  data : dataType
  message : Option String := none
  status : Option Int := none

/-- `ErrorResponse` from `response.interface.ts`.  The `any`-typed `details`
field is kept as a type parameter. -/
structure ErrorResponse (Details : Type) where
  error : String
  message : String
  status : Int
  details : Option Details := none

/-- `FailResponse<dataType>` from `response.interface.ts`: every field is
optional, so the empty object `{}` is a valid instance. -/
structure FailResponse (dataType : Type) where
  status : Option Int := none
  error : Option String := none
  message : Option String := none
  data : Option dataType := none

/-- `PaginationResponse` from `response.interface.ts`: every field is
optional, so the empty object `{}` is a valid instance. -/
structure PaginationResponse where
  page : Option Int := none
  size : Option Int := none
  total : Option Int := none
  totalPages : Option Int := none

/-- `LoginResponse` from `auth.interface.ts`; `U` stands for the `User`
record, whose declaration is outside the fragment. -/
structure LoginResponse (U : Type) where
  access_token : String
  refresh_token : String
  token_type : Option String := none
  user : Option U := none

/-- `SentEmailResponse` from `auth.interface.ts`. -/
structure SentEmailResponse where
  email : Option String := none
  message : Option String := none
  token : Option String := none

/-- `RegisterReponse` from `auth.interface.ts` (the source spells it
without the first `s`). -/
structure RegisterReponse where
  id : Option Int := none
  email : Option String := none
  full_name : Option String := none
  message : Option String := none
  is_email_confirmed : Option Bool := none

/-- The inline parameter type of `resetPassword`: `{ email?: string }`. -/
structure ResetPasswordParams where
  email : Option String

/-- The inline parameter type of `sentEmailAuth`: `{ email: string }`. -/
structure SentEmailParams where
  email : String

/-- The inline parameter type of `loginWithGG`: `{ code: string }`. -/
structure LoginWithGGParams where
  code : String

/-- `authApi.login`: POST to `API_LOGIN_URL` with the credentials as body,
declared response type `SuccessResponse<LoginResponse>`. -/
def authApi.login {L R U ε : Type}
    (client : AxiosClient L R ε (SuccessResponse (LoginResponse U)))
    (params : L) : Except ε (SuccessResponse (LoginResponse U)) :=
  client.post API_LOGIN_URL (some (ReqBody.loginBody params))

/-- `authApi.register`: POST to `API_REGISTER_URL` with the registration
record as body, declared response type `SuccessResponse<RegisterReponse>`. -/
def authApi.register {L R ε : Type}
    (client : AxiosClient L R ε (SuccessResponse RegisterReponse))
    (params : R) : Except ε (SuccessResponse RegisterReponse) :=
  client.post API_REGISTER_URL (some (ReqBody.registerBody params))

/-- `authApi.resetPassword`: GET to `API_RESET_PASS_URL` with the params
object `{ email?: string }` as query config, declared response type
`SuccessResponse<SentEmailResponse>`. -/
def authApi.resetPassword {L R ε : Type}
    (client : AxiosClient L R ε (SuccessResponse SentEmailResponse))
    (params : ResetPasswordParams) :
    Except ε (SuccessResponse SentEmailResponse) :=
  client.get API_RESET_PASS_URL ⟨[("email", params.email)]⟩

/-- `authApi.sentEmailAuth`: GET to `API_SENT_EMAIL_URL` with the params
object `{ email: string }` as query config, declared response type
`SuccessResponse<SentEmailResponse>`. -/
def authApi.sentEmailAuth {L R ε : Type}
    (client : AxiosClient L R ε (SuccessResponse SentEmailResponse))
    (params : SentEmailParams) :
    Except ε (SuccessResponse SentEmailResponse) :=
  client.get API_SENT_EMAIL_URL ⟨[("email", some params.email)]⟩

/-- `authApi.logout`: POST to `API_LOGOUT_URL` with no body, declared
response type `SuccessResponse<null>`. -/
def authApi.logout {L R ε : Type}
    (client : AxiosClient L R ε (SuccessResponse NullData)) :
    Except ε (SuccessResponse NullData) :=
  client.post API_LOGOUT_URL none

/-- `authApi.loginWithGG`: GET to `API_LOGIN_GOOGLE` with the params object
`{ code: string }` as query config, declared response type
`SuccessResponse<LoginResponse>`. -/
def authApi.loginWithGG {L R U ε : Type}
    (client : AxiosClient L R ε (SuccessResponse (LoginResponse U)))
    (params : LoginWithGGParams) :
    Except ε (SuccessResponse (LoginResponse U)) :=
  client.get API_LOGIN_GOOGLE ⟨[("code", some params.code)]⟩

/-- One invocation of one of the six client operations, with its argument. -/
inductive Invocation (L R : Type) where
  | login (p : L)
  | register (p : R)
  | resetPassword (p : ResetPasswordParams)
  | sentEmailAuth (p : SentEmailParams)
  | logout
  | loginWithGG (p : LoginWithGGParams)

/-- A tracing transport: it rejects every request with the request itself, so
running an operation against it exposes the request that operation issues. -/
def traceClient {L R ρ : Type} : AxiosClient L R (HttpRequest L R) ρ :=
  ⟨fun req => Except.error req⟩

/-- Extract the request recorded by `traceClient` from an operation's
result (the `ok` branch is unreachable for that transport). -/
def tracedRequest {L R ρ : Type} (r : Except (HttpRequest L R) ρ) :
    HttpRequest L R :=
  match r with
  | Except.error req => req
  | Except.ok _ => ⟨HttpMethod.GET, "", [], none⟩

/-- The single HTTP request an invocation issues, observed by running the
operation against the tracing transport. -/
def issuedRequest {L R : Type} : Invocation L R → HttpRequest L R
  | Invocation.login p =>
      tracedRequest (authApi.login (U := Unit) traceClient p)
  | Invocation.register p => tracedRequest (authApi.register traceClient p)
  | Invocation.resetPassword p =>
      tracedRequest (authApi.resetPassword traceClient p)
  | Invocation.sentEmailAuth p =>
      tracedRequest (authApi.sentEmailAuth traceClient p)
  | Invocation.logout => tracedRequest (authApi.logout traceClient)
  | Invocation.loginWithGG p =>
      tracedRequest (authApi.loginWithGG (U := Unit) traceClient p)

/-- The requests issued by a history of invocations, in order. -/
def runAll {L R : Type} (hist : List (Invocation L R)) :
    List (HttpRequest L R) :=
  hist.map issuedRequest

/-- A transport that rejects every request with the error `7`. -/
def errClient (ρ : Type) : AxiosClient Unit Unit Nat ρ :=
  ⟨fun _ => Except.error 7⟩

/-- A transport that fulfils every request with the fixed login response
of shape `{data: {access_token: "t1", refresh_token: "t2"}}`. -/
def okLoginClient : AxiosClient Unit Unit Unit (SuccessResponse (LoginResponse Unit)) :=
  ⟨fun _ => Except.ok ⟨⟨"t1", "t2", none, none⟩, none, none⟩⟩

/-- C1: each of the six client operations equals one application of the
transport's `send` to the request `issuedRequest` computes from the
invocation alone, so every invocation issues exactly one HTTP request, and
that request carries the documented method and path: POST /auth/login,
POST /auth/register, GET /auth/email/reset-password, GET /auth/email/verify,
POST /auth/logout, GET /auth/google/callback. -/
theorem authApi_single_documented_request (L R U ε : Type)
    (c₁ : AxiosClient L R ε (SuccessResponse (LoginResponse U)))
    (c₂ : AxiosClient L R ε (SuccessResponse RegisterReponse))
    (c₃ c₄ : AxiosClient L R ε (SuccessResponse SentEmailResponse))
    (c₅ : AxiosClient L R ε (SuccessResponse NullData))
    (c₆ : AxiosClient L R ε (SuccessResponse (LoginResponse U))) :
    (∀ p : L, authApi.login c₁ p = c₁.send (issuedRequest (Invocation.login p)) ∧
      (@issuedRequest L R (Invocation.login p)).method = HttpMethod.POST ∧
      (@issuedRequest L R (Invocation.login p)).url = "/auth/login") ∧
    (∀ p : R, authApi.register c₂ p = c₂.send (issuedRequest (Invocation.register p)) ∧
      (@issuedRequest L R (Invocation.register p)).method = HttpMethod.POST ∧
      (@issuedRequest L R (Invocation.register p)).url = "/auth/register") ∧
    (∀ p : ResetPasswordParams,
      authApi.resetPassword c₃ p = c₃.send (issuedRequest (Invocation.resetPassword p)) ∧
      (@issuedRequest L R (Invocation.resetPassword p)).method = HttpMethod.GET ∧
      (@issuedRequest L R (Invocation.resetPassword p)).url = "/auth/email/reset-password") ∧
    (∀ p : SentEmailParams,
      authApi.sentEmailAuth c₄ p = c₄.send (issuedRequest (Invocation.sentEmailAuth p)) ∧
      (@issuedRequest L R (Invocation.sentEmailAuth p)).method = HttpMethod.GET ∧
      (@issuedRequest L R (Invocation.sentEmailAuth p)).url = "/auth/email/verify") ∧
    (authApi.logout c₅ = c₅.send (issuedRequest Invocation.logout) ∧
      (@issuedRequest L R Invocation.logout).method = HttpMethod.POST ∧
      (@issuedRequest L R Invocation.logout).url = "/auth/logout") ∧
    (∀ p : LoginWithGGParams,
      authApi.loginWithGG c₆ p = c₆.send (issuedRequest (Invocation.loginWithGG p)) ∧
      (@issuedRequest L R (Invocation.loginWithGG p)).method = HttpMethod.GET ∧
      (@issuedRequest L R (Invocation.loginWithGG p)).url = "/auth/google/callback") :=
  ⟨fun _ => ⟨rfl, rfl, rfl⟩, fun _ => ⟨rfl, rfl, rfl⟩, fun _ => ⟨rfl, rfl, rfl⟩,
    fun _ => ⟨rfl, rfl, rfl⟩, ⟨rfl, rfl, rfl⟩, fun _ => ⟨rfl, rfl, rfl⟩⟩

/-- C2: for every email string `e`, `resetPassword {email := some e}` and
`sentEmailAuth {email := e}` each issue a GET carrying `("email", e)` as the
serialized query, and the two fixed paths are distinct. -/
theorem resetPassword_sentEmailAuth_email_query (L R ε : Type)
    (c₃ c₄ : AxiosClient L R ε (SuccessResponse SentEmailResponse)) :
    (∀ e : String,
      authApi.resetPassword c₃ ⟨some e⟩ =
        c₃.send ⟨HttpMethod.GET, API_RESET_PASS_URL, [("email", e)], none⟩ ∧
      authApi.sentEmailAuth c₄ ⟨e⟩ =
        c₄.send ⟨HttpMethod.GET, API_SENT_EMAIL_URL, [("email", e)], none⟩) ∧
    API_RESET_PASS_URL ≠ API_SENT_EMAIL_URL :=
  ⟨fun _ => ⟨rfl, rfl⟩, by decide⟩

/-- C3: `login p` is a POST to the login path whose body is exactly the
caller's argument `p`, at result type `SuccessResponse (LoginResponse U)`,
and `register p` is a POST to the register path whose body is exactly `p`,
at result type `SuccessResponse RegisterReponse`; the body is forwarded
without transformation. -/
theorem login_register_post_body_passthrough (L R U ε : Type)
    (c₁ : AxiosClient L R ε (SuccessResponse (LoginResponse U)))
    (c₂ : AxiosClient L R ε (SuccessResponse RegisterReponse)) :
    (∀ p : L, authApi.login c₁ p =
      c₁.send ⟨HttpMethod.POST, API_LOGIN_URL, [], some (ReqBody.loginBody p)⟩) ∧
    (∀ p : R, authApi.register c₂ p =
      c₂.send ⟨HttpMethod.POST, API_REGISTER_URL, [], some (ReqBody.registerBody p)⟩) :=
  ⟨fun _ => rfl, fun _ => rfl⟩

/-- C4: `logout` takes no argument beyond the transport, issues a POST to the
logout path with body `none`, and its declared result type is
`SuccessResponse NullData` (the embedding of `SuccessResponse<null>`). -/
theorem logout_post_no_body (L R ε : Type)
    (c₅ : AxiosClient L R ε (SuccessResponse NullData)) :
    authApi.logout c₅ = c₅.send ⟨HttpMethod.POST, API_LOGOUT_URL, [], none⟩ ∧
    (@issuedRequest L R Invocation.logout).body = none ∧
    (@issuedRequest L R Invocation.logout).method = HttpMethod.POST :=
  ⟨rfl, rfl, rfl⟩

/-- C5: for every code string, `loginWithGG {code := code}` issues a GET to
the Google callback path with `("code", code)` as the serialized query, at
result type `SuccessResponse (LoginResponse U)`. -/
theorem loginWithGG_code_query (L R U ε : Type)
    (c₆ : AxiosClient L R ε (SuccessResponse (LoginResponse U))) :
    ∀ code : String, authApi.loginWithGG c₆ ⟨code⟩ =
      c₆.send ⟨HttpMethod.GET, API_LOGIN_GOOGLE, [("code", code)], none⟩ :=
  fun _ => rfl

/-- C6: whatever fulfilled response the transport returns for the login
request is returned to the caller unchanged; `login` applies no
transformation to the fulfilled value. -/
theorem login_response_passthrough (L R U ε : Type)
    (c : AxiosClient L R ε (SuccessResponse (LoginResponse U))) (p : L)
    (resp : SuccessResponse (LoginResponse U))
    (h : c.send ⟨HttpMethod.POST, API_LOGIN_URL, [], some (ReqBody.loginBody p)⟩ =
      Except.ok resp) :
    authApi.login c p = Except.ok resp :=
  h

/-- C6 witness: the successful response `{data: {access_token: "t1",
refresh_token: "t2"}}` is returned as-is. -/
theorem login_response_passthrough_witness :
    authApi.login okLoginClient () =
      Except.ok ⟨⟨"t1", "t2", none, none⟩, none, none⟩ :=
  login_response_passthrough Unit Unit Unit Unit okLoginClient ()
    ⟨⟨"t1", "t2", none, none⟩, none, none⟩ rfl

/-- C7: for each of the six operations, if the transport rejects the issued
request with error `e` then the operation's result is that same rejection:
no operation catches, retries, recovers or substitutes a fallback. -/
theorem authApi_rejections_propagate (L R U ε : Type)
    (c₁ : AxiosClient L R ε (SuccessResponse (LoginResponse U)))
    (c₂ : AxiosClient L R ε (SuccessResponse RegisterReponse))
    (c₃ c₄ : AxiosClient L R ε (SuccessResponse SentEmailResponse))
    (c₅ : AxiosClient L R ε (SuccessResponse NullData))
    (c₆ : AxiosClient L R ε (SuccessResponse (LoginResponse U)))
    (lp : L) (rp : R) (pp : ResetPasswordParams) (sp : SentEmailParams)
    (gp : LoginWithGGParams) (e : ε) :
    (c₁.send (issuedRequest (Invocation.login lp)) = Except.error e →
      authApi.login c₁ lp = Except.error e) ∧
    (c₂.send (issuedRequest (Invocation.register rp)) = Except.error e →
      authApi.register c₂ rp = Except.error e) ∧
    (c₃.send (issuedRequest (Invocation.resetPassword pp)) = Except.error e →
      authApi.resetPassword c₃ pp = Except.error e) ∧
    (c₄.send (issuedRequest (Invocation.sentEmailAuth sp)) = Except.error e →
      authApi.sentEmailAuth c₄ sp = Except.error e) ∧
    (c₅.send (issuedRequest Invocation.logout) = Except.error e →
      authApi.logout c₅ = Except.error e) ∧
    (c₆.send (issuedRequest (Invocation.loginWithGG gp)) = Except.error e →
      authApi.loginWithGG c₆ gp = Except.error e) :=
  ⟨fun h => h, fun h => h, fun h => h, fun h => h, fun h => h, fun h => h⟩

/-- C7 witness: a transport rejecting everything with `7` makes all six
operations reject with `7`. -/
theorem authApi_rejections_propagate_witness :
    authApi.login (errClient (SuccessResponse (LoginResponse Unit))) () = Except.error 7 ∧
    authApi.register (errClient (SuccessResponse RegisterReponse)) () = Except.error 7 ∧
    authApi.resetPassword (errClient (SuccessResponse SentEmailResponse)) ⟨some "a@b.com"⟩ =
      Except.error 7 ∧
    authApi.sentEmailAuth (errClient (SuccessResponse SentEmailResponse)) ⟨"a@b.com"⟩ =
      Except.error 7 ∧
    authApi.logout (errClient (SuccessResponse NullData)) = Except.error 7 ∧
    authApi.loginWithGG (errClient (SuccessResponse (LoginResponse Unit))) ⟨"xyz"⟩ =
      Except.error 7 :=
  have h := authApi_rejections_propagate Unit Unit Unit Nat (errClient _) (errClient _)
    (errClient _) (errClient _) (errClient _) (errClient _) () () ⟨some "a@b.com"⟩
    ⟨"a@b.com"⟩ ⟨"xyz"⟩ 7
  ⟨h.1 rfl, h.2.1 rfl, h.2.2.1 rfl, h.2.2.2.1 rfl, h.2.2.2.2.1 rfl, h.2.2.2.2.2 rfl⟩

/-- Helper: in the trace of any history, the request at an invocation's
position is the one computed from that invocation alone. -/
theorem runAll_getElem {L R : Type} (pre post : List (Invocation L R))
    (i : Invocation L R) :
    (runAll (pre ++ i :: post))[pre.length]? = some (issuedRequest i) := by
  induction pre with
  | nil => simp [runAll]
  | cons a t ih => simpa [runAll] using ih

/-- C8: each invocation's issued request is a function of that invocation's
own argument alone: in any two histories, the same invocation produces the
identical request, regardless of what other calls have run before or
after — there is no shared mutable state between the operations. -/
theorem authApi_stateless_requests (L R : Type)
    (pre₁ post₁ pre₂ post₂ : List (Invocation L R)) (i : Invocation L R) :
    (runAll (pre₁ ++ i :: post₁))[pre₁.length]? = some (issuedRequest i) ∧
    (runAll (pre₁ ++ i :: post₁))[pre₁.length]? =
      (runAll (pre₂ ++ i :: post₂))[pre₂.length]? :=
  ⟨runAll_getElem pre₁ post₁ i,
    (runAll_getElem pre₁ post₁ i).trans (runAll_getElem pre₂ post₂ i).symm⟩

/-- C9: every field of `PaginationResponse` and of `FailResponse T` is
optional, so the empty record `{}` is a valid instance of each, with all
four fields absent. -/
theorem empty_record_pagination_fail (T : Type) :
    ({} : PaginationResponse) = ⟨none, none, none, none⟩ ∧
    ({} : FailResponse T) = ⟨none, none, none, none⟩ :=
  ⟨rfl, rfl⟩

/-- C10: `resetPassword` accepts the empty params object (email absent) —
its `email` field is optional, unlike the required `email` of
`sentEmailAuth` — and then issues a GET to the reset-password path whose
serialized query carries no email parameter at all. -/
theorem resetPassword_accepts_missing_email (L R ε : Type)
    (c₃ : AxiosClient L R ε (SuccessResponse SentEmailResponse)) :
    authApi.resetPassword c₃ ⟨none⟩ =
      c₃.send ⟨HttpMethod.GET, API_RESET_PASS_URL, [], none⟩ ∧
    (@issuedRequest L R (Invocation.resetPassword ⟨none⟩)).query = [] :=
  ⟨rfl, rfl⟩
